import Mathlib

/-!
Verification development for the NewRow-Print capability-governance core.

This file shallowly embeds the Rust sources of the repository:

* the Reversal Conditions Kernel
  (`crates/policyengine/src/reversalconditions.rs`, `KernelEvaluator`),
* the role/quorum evaluator of the second kernel draft
  (`policyengine/src/reversalconditions.rs`),
* the ALN capability schema (`src/safest_first_policy/aln_schema.rs`),
* the hivemind fence log (`policy_engine/src/hivemind_fence_log.rs`),
* the SMART rollback synthesizer (`crates/sovereigntycore/src/smart_guard.rs`),
* the NeuroPrint projection (`crates/neuroprint-core/src/neuroprint.rs`),

and proves (or refutes) the specification's claims about them.

Modelling conventions:
* Rust `f32` risk scalars are modelled as `ℚ`; decimal literals such as
  `0.30` become the exact rationals they denote.  For the NeuroPrint claims,
  where NaN behaviour is the point, a dedicated float model `F` with NaN and
  infinities is used instead.
* `Result<T, E>` becomes `Except E T`; `anyhow::Result<T>` becomes
  `Except String T` carrying the error message.
* File-backed append-only logs are modelled by explicit list state passing;
  transient I/O failure is outside the model (spec §7 treats a well-typed
  entry's serialization as total).
-/

namespace NewRowPrint

/-! ### Shared role tags

The `Role` enum used by both kernel drafts lives in `crate::alncore`, which is
not part of the source tree (only the kernels that import it are). -/

/-- Modelled from the spec: `crate::alncore::Role` is absent from the source
tree; spec §3 lists the polymorphic role tags
{Learner, Teacher, Mentor, Operator, Regulator, Host, OrganicCpuOwner,
SovereignKernel}. -/
inductive Role where
| Learner
| Teacher
| Mentor
| Operator
| Regulator
| Host
| OrganicCpuOwner
| SovereignKernel
deriving DecidableEq, Repr

/-! ### Reversal Conditions Kernel
Embeds `crates/policyengine/src/reversalconditions.rs` (the guard-chain
kernel the spec adopts as canonical in §9) together with the concrete
definitions it imports that do exist in the source tree:
`DecisionReason` from `policyengine/src/aln_core.rs`, `ReversalPolicyFlags`
and `EnvelopeContextView` from `policyengine/src/reversalconditions.rs`. -/

namespace PolicyEngine

/-- Capability tier lattice used by both kernel drafts.  Discriminant order
(`CapModelOnly < CapLabBench < CapControlledHuman < CapGeneralUse`) is stated
in `policyengine/src/reversalconditions.rs` line 90. -/
inductive CapabilityState where
| CapModelOnly
| CapLabBench
| CapControlledHuman
| CapGeneralUse
deriving DecidableEq, Repr

/-- Rust enum discriminant (`as u8`) of a capability tier. -/
def CapabilityState.tier_index : CapabilityState → Nat
| .CapModelOnly => 0
| .CapLabBench => 1
| .CapControlledHuman => 2
| .CapGeneralUse => 3

/-- `DecisionReason` from `policyengine/src/aln_core.rs`. -/
inductive DecisionReason where
| Allowed
| DeniedInsufficientConsent
| DeniedConsentRevoked
| DeniedPolicyStackFailure
| DeniedMissingEvidence
| DeniedIllegalDowngradeByNonRegulator
| DeniedNoSaferAlternativeNotProved
| DeniedReversalNotAllowedInTier
| DeniedRoHViolation
| DeniedNeuromorphReversalProhibited
| DeniedUnknown
deriving DecidableEq, Repr

/-- `Decision { allowed, reason }` as given in the
`policyengine/src/reversalconditions.rs` trailing documentation block
(lines 221-243), which also fixes the `allow`/`deny` constructors. -/
structure Decision where
allowed : Bool
reason : DecisionReason
deriving DecidableEq, Repr

/-- `Decision::Allowed` (equivalently `Decision::allow()`). -/
def Decision.Allowed : Decision := { allowed := true, reason := DecisionReason.Allowed }

/-- `Decision::denied(reason)` (equivalently `Decision::deny(reason)`). -/
def Decision.denied (r : DecisionReason) : Decision := { allowed := false, reason := r }

/-- `ReversalPolicyFlags` from `policyengine/src/reversalconditions.rs`
lines 30-41 (three booleans).  The crates-kernel variant additionally carries
the regulator quorum (`ctx.reversal_flags.required_regulator_quorum`,
`crates/policyengine/src/reversalconditions.rs` line 54); its defining module
`crate::reversal_policy` is absent from the source tree, so that field is
modelled from the spec: §6 lists "the regulator quorum number" as part of the
configuration surface, a `u8` per §3. -/
structure ReversalPolicyFlags where
allow_neuromorph_reversal : Bool
explicit_reversal_order : Bool
no_safer_alternative : Bool
required_regulator_quorum : Nat
deriving DecidableEq, Repr

/-- `EnvelopeContextView` from `policyengine/src/reversalconditions.rs`
lines 46-54. -/
structure EnvelopeContextView where
requires_downgrade : Bool
request_capability_downgrade : Bool
balance_maintained : Bool
deriving DecidableEq, Repr

/-- Modelled from the spec: `crate::alncore::PolicyStack` with its
`all_pass()` method is absent from the source tree (only the kernels calling
it are).  Spec §3/§4.2: four named sets of jurisdiction tags; `all_pass`
(alias "satisfied") is the pure structural AND of the four sets being
non-empty. -/
structure PolicyStack where
base_medical : List String
base_engineering : List String
juris_local : List String
quantum_ai_safety : List String
deriving DecidableEq, Repr

/-- Modelled from the spec: §4.2 "pure structural AND" of the four
jurisdiction-tag sets being non-empty. -/
def PolicyStack.all_pass (ps : PolicyStack) : Bool :=
!ps.base_medical.isEmpty && !ps.base_engineering.isEmpty
  && !ps.juris_local.isEmpty && !ps.quantum_ai_safety.isEmpty

/-- Modelled from the spec: `crate::alncore::RoleSet` as used by the crates
kernel (`ctx.roles.neuromorph_god_satisfied(quorum)`) is absent from the
source tree.  Spec §3: a RoleSet is a multiset of Role (the quorum number is
passed in separately by this kernel draft). -/
structure RoleSet where
roles : List Role
deriving DecidableEq, Repr

/-- Modelled from the spec: §4.2 sovereignty composite — true iff
{Host, OrganicCpuOwner, SovereignKernel} are present and
count(Regulator) ≥ the required regulator quorum. -/
def RoleSet.neuromorph_god_satisfied (rs : RoleSet) (quorum : Nat) : Bool :=
rs.roles.contains Role.Host
  && rs.roles.contains Role.OrganicCpuOwner
  && rs.roles.contains Role.SovereignKernel
  && decide (quorum ≤ rs.roles.count Role.Regulator)

/-- `ReversalContext` from `crates/policyengine/src/reversalconditions.rs`
lines 12-22.  Rust field names `from`/`to` are Lean keywords and are rendered
`fromState`/`toState`. -/
structure ReversalContext where
fromState : CapabilityState
toState : CapabilityState
roh_before : ℚ
roh_after : ℚ
roles : RoleSet
reversal_flags : ReversalPolicyFlags
policystack : PolicyStack
envelope_ctx : EnvelopeContextView
nosaferalternative : Bool

/-- `is_neuromorph_downgrade` from
`crates/policyengine/src/reversalconditions.rs` lines 76-86: a fixed list of
five (from, to) pairs.  Note the pair (CapLabBench, CapModelOnly) is not in
the list. -/
def is_neuromorph_downgrade : CapabilityState → CapabilityState → Bool
| .CapControlledHuman, .CapLabBench => true
| .CapControlledHuman, .CapModelOnly => true
| .CapGeneralUse, .CapControlledHuman => true
| .CapGeneralUse, .CapLabBench => true
| .CapGeneralUse, .CapModelOnly => true
| _, _ => false

/-- `reduces_capability_and_roh` from
`crates/policyengine/src/reversalconditions.rs` lines 88-90. -/
def reduces_capability_and_roh (ctx : ReversalContext) : Bool :=
is_neuromorph_downgrade ctx.fromState ctx.toState
  && decide (ctx.roh_after ≤ ctx.roh_before)

/-- `KernelEvaluator::evaluate_reversal` from
`crates/policyengine/src/reversalconditions.rs` lines 33-73.  The source's
step 2 is three nested `if`s whose innermost branch returns; here that is the
single conjoined condition of the second branch. -/
def KernelEvaluator.evaluate_reversal (ctx : ReversalContext) : Decision :=
if !(is_neuromorph_downgrade ctx.fromState ctx.toState) then
  Decision.Allowed
else if ctx.fromState = CapabilityState.CapControlledHuman
    ∧ ¬(reduces_capability_and_roh ctx = true)
    ∧ (ctx.roh_after > ctx.roh_before ∨ ctx.roh_after > 3/10) then
  Decision.denied DecisionReason.DeniedRoHViolation
else if !ctx.reversal_flags.allow_neuromorph_reversal then
  Decision.denied DecisionReason.DeniedReversalNotAllowedInTier
else if !(ctx.roles.neuromorph_god_satisfied ctx.reversal_flags.required_regulator_quorum) then
  Decision.denied DecisionReason.DeniedIllegalDowngradeByNonRegulator
else if !ctx.reversal_flags.explicit_reversal_order || !ctx.nosaferalternative then
  Decision.denied DecisionReason.DeniedNoSaferAlternativeNotProved
else if !ctx.policystack.all_pass then
  Decision.denied DecisionReason.DeniedPolicyStackFailure
else if !ctx.envelope_ctx.request_capability_downgrade then
  Decision.denied DecisionReason.DeniedIllegalDowngradeByNonRegulator
else
  Decision.Allowed

end PolicyEngine

/-! ### Second kernel draft's role/quorum evaluator
Embeds the `RoleSet` wrapper and the free function `neuromorph_god_satisfied`
from `policyengine/src/reversalconditions.rs` lines 56-83. -/

namespace PolicyEngineSrc

/-- `RoleSet` from `policyengine/src/reversalconditions.rs` lines 57-62: a
vector of roles plus the configured regulator quorum (`u8`).  `u8` values are
modelled as `Nat` (quorum values written by configuration are below 256). -/
structure RoleSet where
roles : List Role
required_regulator_quorum : Nat
deriving DecidableEq, Repr

/-- `RoleSet::has_role` (line 65-67). -/
def RoleSet.has_role (rs : RoleSet) (role : Role) : Bool :=
rs.roles.any (fun r => r = role)

/-- `RoleSet::count_role` (lines 69-71): `.count() as u8`.  The cast from
`usize` to `u8` truncates, hence the `% 256`. -/
def RoleSet.count_role (rs : RoleSet) (role : Role) : Nat :=
(rs.roles.count role) % 256

/-- `neuromorph_god_satisfied` from `policyengine/src/reversalconditions.rs`
lines 76-83 (`reg_count >= role_set.required_regulator_quorum` compares two
`u8` values). -/
def neuromorph_god_satisfied (role_set : RoleSet) : Bool :=
role_set.has_role Role.Host
  && role_set.has_role Role.OrganicCpuOwner
  && role_set.has_role Role.SovereignKernel
  && decide (role_set.required_regulator_quorum ≤ role_set.count_role Role.Regulator)

end PolicyEngineSrc

/-! ### ALN capability schema
Embeds `src/safest_first_policy/aln_schema.rs`: `PolicyStack` with
`is_satisfied`, and `CapabilityTransition` with `validate`. -/

namespace AlnSchema

/-- `CapabilityState` from `aln_schema.rs` lines 10-24. -/
inductive CapabilityState where
| ModelOnly
| LabBench
| ControlledHuman
| GeneralUse
deriving DecidableEq, Repr

/-- `ConsentState` from `aln_schema.rs` lines 28-40. -/
inductive ConsentState where
| None
| Minimal
| Extended
| Revoked
deriving DecidableEq, Repr

/-- `Role` from `aln_schema.rs` lines 44-50 (distinct from the kernel `Role`
enum). -/
inductive SchemaRole where
| Learner
| Teacher
| Mentor
| RegulatoryGuardian
| Operator
deriving DecidableEq, Repr

/-- `JurisdictionTag` from `aln_schema.rs` lines 54-62. -/
inductive JurisdictionTag where
| Fda
| EuMdr
| IsoIec60601_1
| IsoIec60601_2_57
| IsoIec60601_1_2
| JurisLocal
| QuantumAiSafety
deriving DecidableEq, Repr

/-- `PolicyStack` from `aln_schema.rs` lines 64-70. -/
structure PolicyStack where
base_medical : List JurisdictionTag
base_engineering : List JurisdictionTag
juris_local : List JurisdictionTag
quantum_ai_safety : List JurisdictionTag
deriving DecidableEq, Repr

/-- `PolicyStack::new` from `aln_schema.rs` lines 73-84 (note the empty
`juris_local`). -/
def PolicyStack.new : PolicyStack :=
{ base_medical := [JurisdictionTag.Fda, JurisdictionTag.EuMdr]
  base_engineering := [JurisdictionTag.IsoIec60601_1, JurisdictionTag.IsoIec60601_1_2,
    JurisdictionTag.IsoIec60601_2_57]
  juris_local := []
  quantum_ai_safety := [JurisdictionTag.QuantumAiSafety] }

/-- `PolicyStack::is_satisfied` from `aln_schema.rs` lines 87-91: only
`base_medical`, `base_engineering` and `quantum_ai_safety` are tested;
`juris_local` is not consulted. -/
def PolicyStack.is_satisfied (ps : PolicyStack) : Bool :=
!ps.base_medical.isEmpty && !ps.base_engineering.isEmpty && !ps.quantum_ai_safety.isEmpty

/-- `CapabilityTransition` from `aln_schema.rs` lines 101-112.  Rust field
names `from`/`to` are Lean keywords and are rendered `fromState`/`toState`. -/
structure CapabilityTransition where
fromState : CapabilityState
toState : CapabilityState
required_evidence : List String
required_consent : ConsentState
required_roles : List SchemaRole
policy_stack : PolicyStack
ltl_property : Option String
deriving DecidableEq, Repr

/-- Step 1 of `CapabilityTransition::validate` (`aln_schema.rs` lines
117-149): the allowed transition graph.  All sixteen pairs are matched; the
source's final wildcard arm is unreachable. -/
def transition_graph_check : CapabilityState → CapabilityState → Except String Unit
| .ModelOnly, .ModelOnly => Except.ok ()
| .ModelOnly, .LabBench => Except.ok ()
| .ModelOnly, .ControlledHuman =>
  Except.error "Direct ModelOnly → ControlledHuman not permitted; must pass through LabBench."
| .ModelOnly, .GeneralUse =>
  Except.error "Direct ModelOnly → GeneralUse not permitted; must pass through LabBench and ControlledHuman."
| .LabBench, .ModelOnly => Except.ok ()
| .LabBench, .LabBench => Except.ok ()
| .LabBench, .ControlledHuman => Except.ok ()
| .LabBench, .GeneralUse =>
  Except.error "Direct LabBench → GeneralUse not permitted; must pass through ControlledHuman."
| .ControlledHuman, .ModelOnly => Except.ok ()
| .ControlledHuman, .LabBench => Except.ok ()
| .ControlledHuman, .ControlledHuman => Except.ok ()
| .ControlledHuman, .GeneralUse => Except.ok ()
| .GeneralUse, .ModelOnly => Except.ok ()
| .GeneralUse, .LabBench => Except.ok ()
| .GeneralUse, .ControlledHuman => Except.ok ()
| .GeneralUse, .GeneralUse => Except.ok ()

/-- `CapabilityTransition::validate` from `aln_schema.rs` lines 115-174. -/
def CapabilityTransition.validate (t : CapabilityTransition) : Except String Unit := do
_ ← transition_graph_check t.fromState t.toState
if t.toState ≠ CapabilityState.ModelOnly ∧ t.required_evidence.isEmpty then
  throw "Evidence objects required for transition to non-ModelOnly state."
else if t.toState ≠ CapabilityState.ModelOnly ∧ t.required_consent = ConsentState.None then
  throw "Consent cannot be None for transition to non-ModelOnly state."
else if (t.toState = CapabilityState.ControlledHuman ∨ t.toState = CapabilityState.GeneralUse)
    ∧ t.required_roles.isEmpty then
  throw "At least one role is required for transitions to ControlledHuman or GeneralUse."
else if !t.policy_stack.is_satisfied then
  throw "Policy stack not satisfied: missing BASE_MEDICAL, BASE_ENGINEERING, or QUANTUM_AI_SAFETY."
else
  pure ()

end AlnSchema

/-! ### Hivemind fence log
Embeds `policy_engine/src/hivemind_fence_log.rs`.  The JSONL file at
`config.storage_path` is modelled as the list of views already appended to
it, passed and returned explicitly; serialization of a well-typed view is
total (spec §7) and transient I/O failure is outside the model. -/

namespace HivemindFence

/-- `FenceState` from `hivemind_fence_log.rs` lines 33-37. -/
inductive FenceState where
| Info
| Warn
| Risk
deriving DecidableEq, Repr

/-- `HiveMindFenceView` from `hivemind_fence_log.rs` lines 7-29 (`f32`
scalars modelled as `ℚ`). -/
structure HiveMindFenceView where
view_id : String
subject_id : String
cohort_id : Option String
epoch_index : Int
roh_score : ℚ
unfairdrain_index : Option ℚ
unfairfear_index : Option ℚ
unfairpain_index : Option ℚ
cohort_decay_gini : Option ℚ
cohort_fear_gini : Option ℚ
cohort_pain_gini : Option ℚ
subject_unfairdrain_state : Option FenceState
subject_unfairstress_state : Option FenceState
cohort_balance_state : Option FenceState
unfairdrain_flag : Bool
collective_imbalance_flag : Bool
cohort_cooldown_advised : Bool
timestamp_utc : String
prev_hexstamp : String
hexstamp : String
anchor_id : Option String
deriving DecidableEq, Repr

/-- `HiveMindFenceLogConfig` from `hivemind_fence_log.rs` lines 41-46. -/
structure HiveMindFenceLogConfig where
storage_path : String
genesis_hexstamp : String
deriving DecidableEq, Repr

/-- `HiveMindFenceLogError` from `hivemind_fence_log.rs` lines 50-53. -/
inductive HiveMindFenceLogError where
| IoError (msg : String)
| SerializationError (msg : String)
deriving DecidableEq, Repr

/-- `append_hivemind_fence_view` from `hivemind_fence_log.rs` lines 64-85.
The function opens the log in append mode and writes the serialized view plus
a newline; it performs no check of `view.prev_hexstamp` against the last
stored entry's `hexstamp` (or `config.genesis_hexstamp`), so on the pure
model it always succeeds and extends the log by the given view. -/
def append_hivemind_fence_view (_config : HiveMindFenceLogConfig)
    (log : List HiveMindFenceView) (view : HiveMindFenceView) :
    Except HiveMindFenceLogError (List HiveMindFenceView) :=
Except.ok (log ++ [view])

end HivemindFence

/-! ### SMART rollback synthesizer
Embeds `synthesize_smart_rollback_entry` from
`crates/sovereigntycore/src/smart_guard.rs` lines 165-203.  The
`DonutloopEntry` record comes from the `organiccpualn` crate, which is not in
the source tree; its fields and their types are modelled from their
construction in `smart_guard.rs` lines 188-202.  The call to
`chrono::Utc::now()` is modelled by an explicit `now_utc` argument. -/

namespace SovereigntyCore

/-- `organiccpualn::donutloopledger::DonutloopEntry`, fields as constructed
in `smart_guard.rs` lines 188-202 (`f32` scalars modelled as `ℚ`). -/
structure DonutloopEntry where
entry_id : String
subject_id : String
proposal_id : String
change_type : String
tsafe_mode : String
roh_before : ℚ
roh_after : ℚ
knowledge_factor : ℚ
cybostate_factor : ℚ
policy_refs : List String
hexstamp : String
timestamp_utc : String
prev_hexstamp : String
deriving DecidableEq, Repr

/-- `synthesize_smart_rollback_entry` from `smart_guard.rs` lines 165-203.
The two `bail!` branches become `Except.error` with the formatted message;
the tolerance literal `1e-6` is the rational it denotes. -/
def synthesize_smart_rollback_entry (offending_entry last_safe_entry : DonutloopEntry)
    (new_entry_id new_hexstamp now_utc : String) : Except String DonutloopEntry :=
if offending_entry.subject_id ≠ last_safe_entry.subject_id then
  Except.error "rollback: subject_id mismatch between offending and last_safe entries"
else if last_safe_entry.roh_after > offending_entry.roh_after + 1/1000000 then
  Except.error ("rollback: last_safe.roh_after (" ++ toString last_safe_entry.roh_after
    ++ ") is already lower than offending.roh_after (" ++ toString offending_entry.roh_after
    ++ ") - nothing to roll back")
else
  Except.ok
    { entry_id := new_entry_id
      subject_id := offending_entry.subject_id
      proposal_id := "rollback-" ++ offending_entry.proposal_id
      change_type := "rollback-" ++ offending_entry.change_type
      tsafe_mode := "Observe"
      roh_before := offending_entry.roh_after
      roh_after := last_safe_entry.roh_after
      knowledge_factor := offending_entry.knowledge_factor
      cybostate_factor := offending_entry.cybostate_factor
      policy_refs := offending_entry.policy_refs
      hexstamp := new_hexstamp
      timestamp_utc := now_utc
      prev_hexstamp := offending_entry.hexstamp }

end SovereigntyCore

/-! ### NeuroPrint projection
Embeds `crates/neuroprint-core/src/neuroprint.rs`.  Because the claim about
this module concerns totality over all `f32` inputs including NaN, `f32` is
modelled by the type `F` below, which carries NaN and both infinities
explicitly.  Finite arithmetic is carried exactly over `ℚ` (IEEE rounding of
finite results is abstracted away, and signed zeros are identified; the
boundedness claim depends only on NaN/infinity propagation and on `clamp01`,
neither of which rounding affects). -/

namespace NeuroPrintCore

/-- `f32` value model: NaN, the two infinities, and finite values carried as
exact rationals. -/
inductive F where
| nan
| inf
| neginf
| val (q : ℚ)
deriving DecidableEq, Repr

/-- `f32::is_nan`. -/
def F.is_nan : F → Bool
| .nan => true
| _ => false

/-- IEEE comparison `x < y`: false whenever an operand is NaN. -/
def F.blt : F → F → Bool
| .nan, _ => false
| _, .nan => false
| .neginf, .neginf => false
| .neginf, _ => true
| .inf, _ => false
| .val _, .inf => true
| .val _, .neginf => false
| .val a, .val b => decide (a < b)

/-- IEEE addition on the model: NaN propagates, opposite infinities give
NaN. -/
def F.add : F → F → F
| .nan, _ => .nan
| _, .nan => .nan
| .inf, .neginf => .nan
| .neginf, .inf => .nan
| .inf, _ => .inf
| _, .inf => .inf
| .neginf, _ => .neginf
| _, .neginf => .neginf
| .val a, .val b => .val (a + b)

/-- IEEE multiplication on the model: NaN propagates, zero times infinity is
NaN, otherwise infinities follow the sign rules. -/
def F.mul : F → F → F
| .nan, _ => .nan
| _, .nan => .nan
| .inf, .inf => .inf
| .inf, .neginf => .neginf
| .neginf, .inf => .neginf
| .neginf, .neginf => .inf
| .inf, .val b => if 0 < b then .inf else if b < 0 then .neginf else .nan
| .val a, .inf => if 0 < a then .inf else if a < 0 then .neginf else .nan
| .neginf, .val b => if 0 < b then .neginf else if b < 0 then .inf else .nan
| .val a, .neginf => if 0 < a then .neginf else if a < 0 then .inf else .nan
| .val a, .val b => .val (a * b)

/-- IEEE division on the model: NaN propagates, infinity over infinity and
zero over zero are NaN, finite over infinity is zero, division of a nonzero
finite or infinite value by zero gives a signed infinity (signed zeros being
identified, the sign of a zero divisor is taken positive). -/
def F.div : F → F → F
| .nan, _ => .nan
| _, .nan => .nan
| .inf, .inf => .nan
| .inf, .neginf => .nan
| .neginf, .inf => .nan
| .neginf, .neginf => .nan
| .inf, .val b => if b < 0 then .neginf else .inf
| .neginf, .val b => if b < 0 then .inf else .neginf
| .val _, .inf => .val 0
| .val _, .neginf => .val 0
| .val a, .val b =>
  if b = 0 then (if 0 < a then .inf else if a < 0 then .neginf else .nan)
  else .val (a / b)

/-- IEEE negation on the model. -/
def F.neg : F → F
| .nan => .nan
| .inf => .neginf
| .neginf => .inf
| .val a => .val (-a)

/-- IEEE subtraction on the model. -/
def F.sub (x y : F) : F := x.add y.neg

/-- `clamp01` from `neuroprint.rs` lines 52-62. -/
def clamp01 (x : F) : F :=
if x.is_nan then F.val 0
else if x.blt (F.val 0) then F.val 0
else if (F.val 1).blt x then F.val 1
else x

/-- `NeuroPrintInput` from `neuroprint.rs` lines 7-23. -/
structure NeuroPrintInput where
subject_id : String
epoch_index : Nat
roh_after : F
roh_ceiling : F
hr_norm : F
hrv_norm : F
eeg_wave_norm : F
eda_norm : F
motion_norm : F
capability_tier : F
evolve_index : F
bio_1d_coord : F
biofield_intensity : F
deriving DecidableEq, Repr

/-- `NeuroPrintView` from `neuroprint.rs` lines 27-50. -/
structure NeuroPrintView where
subject_id : String
epoch_index : Nat
blood : F
oxygen : F
wave : F
time : F
decay : F
lifeforce : F
brain : F
smart : F
evolve : F
power : F
tech : F
fear : F
pain : F
nano : F
bio_coord_1d : F
biofield_load : F
nature_labels : List String
deriving DecidableEq, Repr

/-- `neuroprint_from_snapshot` from `neuroprint.rs` lines 66-135.  The `u64`
to `f32` cast of `epoch_index` in the `time` field is modelled as the exact
rational (cast rounding is abstracted; `clamp01` bounds the result either
way).  The source's three conditional `nature_labels.push` calls become list
concatenation in push order. -/
def neuroprint_from_snapshot (input : NeuroPrintInput) : NeuroPrintView :=
let roh_norm :=
  if (F.val 0).blt input.roh_ceiling then clamp01 (input.roh_after.div input.roh_ceiling)
  else F.val 0
let decay := roh_norm
let lifeforce := clamp01 ((F.val 1).sub roh_norm)
let blood := clamp01 input.hr_norm
let oxygen := clamp01 input.hrv_norm
let wave := clamp01 input.eeg_wave_norm
let brain := clamp01 input.capability_tier
let evolve := clamp01 input.evolve_index
let smart := clamp01 (((F.val (1/2)).mul brain).add ((F.val (1/2)).mul evolve))
let power := clamp01 (((F.val (1/2)).mul input.hr_norm).add ((F.val (1/2)).mul input.eeg_wave_norm))
let tech := clamp01 (((F.val (1/2)).mul brain).add ((F.val (1/2)).mul power))
let fear := clamp01 (((F.val (3/5)).mul input.eda_norm).add ((F.val (2/5)).mul input.hr_norm))
let pain := clamp01 (((F.val (1/2)).mul input.motion_norm).add ((F.val (1/2)).mul input.eda_norm))
let nano := evolve
let bio_coord_1d := clamp01 input.bio_1d_coord
let biofield_load := clamp01 input.biofield_intensity
let nature_labels :=
  (if (F.val (7/10)).blt lifeforce && fear.blt (F.val (3/10))
      && pain.blt (F.val (3/10)) && decay.blt (F.val (3/10)) then
    ["CALM_STABLE"] else [])
  ++ (if (F.val (7/10)).blt decay || (F.val (7/10)).blt fear
      || (F.val (7/10)).blt pain then
    ["OVERLOADED"] else [])
  ++ (if (F.val (4/5)).blt biofield_load && lifeforce.blt (F.val (2/5)) then
    ["LOCAL_1D_OVERLOAD"] else [])
{ subject_id := input.subject_id
  epoch_index := input.epoch_index
  blood := blood
  oxygen := oxygen
  wave := wave
  time := clamp01 ((F.val (input.epoch_index : ℚ)).div (F.val 10000))
  decay := decay
  lifeforce := lifeforce
  brain := brain
  smart := smart
  evolve := evolve
  power := power
  tech := tech
  fear := fear
  pain := pain
  nano := nano
  bio_coord_1d := bio_coord_1d
  biofield_load := biofield_load
  nature_labels := nature_labels }

/-- Membership of a model float in the closed interval [0, 1]: a finite value
whose rational payload lies between 0 and 1 (in particular, never NaN or an
infinity). -/
def F.in01 (x : F) : Prop := ∃ q : ℚ, x = F.val q ∧ 0 ≤ q ∧ q ≤ 1

end NeuroPrintCore

/-! ### Concrete evaluation inputs
Closed values used to evaluate the embedded functions at specific inputs. -/

namespace Fixtures

open PolicyEngine

/-- Reversal flags with the tier-1 switch off and everything else granted. -/
def flags_off : ReversalPolicyFlags :=
{ allow_neuromorph_reversal := false
  explicit_reversal_order := true
  no_safer_alternative := true
  required_regulator_quorum := 1 }

/-- Reversal flags with every switch granted and quorum 1. -/
def flags_on : ReversalPolicyFlags :=
{ allow_neuromorph_reversal := true
  explicit_reversal_order := true
  no_safer_alternative := true
  required_regulator_quorum := 1 }

/-- Role set carrying the full sovereignty composite plus one regulator. -/
def roles_full : PolicyEngine.RoleSet :=
{ roles := [Role.Host, Role.OrganicCpuOwner, Role.SovereignKernel, Role.Regulator] }

/-- Policy stack with all four jurisdiction-tag sets non-empty. -/
def stack_ok : PolicyEngine.PolicyStack :=
{ base_medical := ["US-FDA"]
  base_engineering := ["ISO-60601"]
  juris_local := ["LOCAL"]
  quantum_ai_safety := ["QAS"] }

/-- Envelope context that recommends and requests the downgrade. -/
def envelope_ok : EnvelopeContextView :=
{ requires_downgrade := true
  request_capability_downgrade := true
  balance_maintained := true }

/-- LabBench → ModelOnly request (an index-downgrade) with the tier-1
reversal switch off. -/
def ctx_labbench_modelonly_off : ReversalContext :=
{ fromState := CapabilityState.CapLabBench
  toState := CapabilityState.CapModelOnly
  roh_before := 1/10
  roh_after := 1/10
  roles := roles_full
  reversal_flags := flags_off
  policystack := stack_ok
  envelope_ctx := envelope_ok
  nosaferalternative := true }

/-- ControlledHuman → LabBench request with the tier-1 switch off and a
risk-increasing RoH pair. -/
def ctx_ch_risk_up_off : ReversalContext :=
{ fromState := CapabilityState.CapControlledHuman
  toState := CapabilityState.CapLabBench
  roh_before := 1/10
  roh_after := 1/5
  roles := roles_full
  reversal_flags := flags_off
  policystack := stack_ok
  envelope_ctx := envelope_ok
  nosaferalternative := true }

/-- ControlledHuman → LabBench request with every guard input favourable but
RoH rising from 0.1 to 0.4. -/
def ctx_ch_risk_up_on : ReversalContext :=
{ fromState := CapabilityState.CapControlledHuman
  toState := CapabilityState.CapLabBench
  roh_before := 1/10
  roh_after := 2/5
  roles := roles_full
  reversal_flags := flags_on
  policystack := stack_ok
  envelope_ctx := envelope_ok
  nosaferalternative := true }

/-- GeneralUse → LabBench request passing every guard while RoH rises from
0.1 to 0.9. -/
def ctx_gu_risk_up_on : ReversalContext :=
{ fromState := CapabilityState.CapGeneralUse
  toState := CapabilityState.CapLabBench
  roh_before := 1/10
  roh_after := 9/10
  roles := roles_full
  reversal_flags := flags_on
  policystack := stack_ok
  envelope_ctx := envelope_ok
  nosaferalternative := true }

/-- ControlledHuman → LabBench request with RoH exactly unchanged at 0.2. -/
def ctx_ch_risk_equal : ReversalContext :=
{ fromState := CapabilityState.CapControlledHuman
  toState := CapabilityState.CapLabBench
  roh_before := 1/5
  roh_after := 1/5
  roles := roles_full
  reversal_flags := flags_on
  policystack := stack_ok
  envelope_ctx := envelope_ok
  nosaferalternative := true }

/-- ControlledHuman → LabBench request passing every guard while RoH falls
from 0.9 to only 0.8, far above the 0.30 ceiling. -/
def ctx_ch_over_ceiling_on : ReversalContext :=
{ fromState := CapabilityState.CapControlledHuman
  toState := CapabilityState.CapLabBench
  roh_before := 9/10
  roh_after := 4/5
  roles := roles_full
  reversal_flags := flags_on
  policystack := stack_ok
  envelope_ctx := envelope_ok
  nosaferalternative := true }

/-- LabBench → ModelOnly request in which every downgrade guard input is
unfavourable (flag off, empty role set, empty policy stack, no envelope
request, no safer alternative unproved). -/
def ctx_labbench_modelonly_hostile : ReversalContext :=
{ fromState := CapabilityState.CapLabBench
  toState := CapabilityState.CapModelOnly
  roh_before := 1/10
  roh_after := 9/10
  roles := { roles := [] }
  reversal_flags := flags_off
  policystack := { base_medical := [], base_engineering := [], juris_local := [], quantum_ai_safety := [] }
  envelope_ctx := { requires_downgrade := false, request_capability_downgrade := false, balance_maintained := false }
  nosaferalternative := false }

/-- ModelOnly → LabBench upgrade request used to exercise the non-downgrade
branch. -/
def ctx_upgrade_model_labbench : ReversalContext :=
{ fromState := CapabilityState.CapModelOnly
  toState := CapabilityState.CapLabBench
  roh_before := 1/10
  roh_after := 1/5
  roles := { roles := [] }
  reversal_flags := flags_off
  policystack := { base_medical := [], base_engineering := [], juris_local := [], quantum_ai_safety := [] }
  envelope_ctx := { requires_downgrade := false, request_capability_downgrade := false, balance_maintained := false }
  nosaferalternative := false }

/-- Role multiset with the three structural roles and 256 Regulator entries
(quorum 1): the u8 cast in `count_role` truncates 256 to 0. -/
def roleset_256_regulators : PolicyEngineSrc.RoleSet :=
{ roles := [Role.Host, Role.OrganicCpuOwner, Role.SovereignKernel]
    ++ List.replicate 256 Role.Regulator
  required_regulator_quorum := 1 }

/-- Role multiset with the three structural roles and a single Regulator,
quorum 1. -/
def roleset_small : PolicyEngineSrc.RoleSet :=
{ roles := [Role.Host, Role.OrganicCpuOwner, Role.SovereignKernel, Role.Regulator]
  required_regulator_quorum := 1 }

/-- ModelOnly → LabBench transition whose consent is Revoked but which
satisfies every check `validate` actually performs. -/
def transition_revoked_consent : AlnSchema.CapabilityTransition :=
{ fromState := AlnSchema.CapabilityState.ModelOnly
  toState := AlnSchema.CapabilityState.LabBench
  required_evidence := ["cid:QmEvidence1"]
  required_consent := AlnSchema.ConsentState.Revoked
  required_roles := []
  policy_stack := AlnSchema.PolicyStack.new
  ltl_property := none }

/-- Fence-log configuration fixture. -/
def fence_config : HivemindFence.HiveMindFenceLogConfig :=
{ storage_path := "/logs/hivemind-fence-view.jsonl"
  genesis_hexstamp := "0xHMFENCE-GENESIS" }

/-- A fence view with the given identifiers and hash linkage fields. -/
def mk_fence_view (view_id prev hex : String) : HivemindFence.HiveMindFenceView :=
{ view_id := view_id
  subject_id := "subject-1"
  cohort_id := none
  epoch_index := 1
  roh_score := 1/10
  unfairdrain_index := none
  unfairfear_index := none
  unfairpain_index := none
  cohort_decay_gini := none
  cohort_fear_gini := none
  cohort_pain_gini := none
  subject_unfairdrain_state := none
  subject_unfairstress_state := none
  cohort_balance_state := none
  unfairdrain_flag := false
  collective_imbalance_flag := false
  cohort_cooldown_advised := false
  timestamp_utc := "2026-01-01T00:00:00Z"
  prev_hexstamp := prev
  hexstamp := hex
  anchor_id := none }

/-- First fence-log entry, correctly linked to the genesis sentinel. -/
def fence_view_genesis : HivemindFence.HiveMindFenceView :=
mk_fence_view "view-0" "0xHMFENCE-GENESIS" "0xAAA0"

/-- Second fence-log entry whose `prev_hexstamp` matches neither the last
entry's hexstamp nor the genesis sentinel. -/
def fence_view_mismatch : HivemindFence.HiveMindFenceView :=
mk_fence_view "view-1" "0xBOGUS" "0xAAA1"

/-- A ledger entry for subject-1 with the given RoH-after value. -/
def mk_donut_entry (entry_id : String) (roh_after : ℚ) : SovereigntyCore.DonutloopEntry :=
{ entry_id := entry_id
  subject_id := "subject-1"
  proposal_id := "prop-" ++ entry_id
  change_type := "evolve"
  tsafe_mode := "Act"
  roh_before := 1/20
  roh_after := roh_after
  knowledge_factor := 1/2
  cybostate_factor := 1/2
  policy_refs := ["policy-0001-2026"]
  hexstamp := "0xHEX-" ++ entry_id
  timestamp_utc := "2026-01-01T00:00:00Z"
  prev_hexstamp := "0xHEX-PREV" }

/-- Offending entry fixture at RoH 0.25. -/
def offending_entry : SovereigntyCore.DonutloopEntry := mk_donut_entry "off" (1/4)

/-- Last-safe entry fixture strictly above the offending RoH but within the
1e-6 tolerance. -/
def last_safe_within_eps : SovereigntyCore.DonutloopEntry :=
mk_donut_entry "safe" (1/4 + 1/5000000)

/-- Last-safe entry fixture at RoH 0.2, below the offending entry. -/
def last_safe_below : SovereigntyCore.DonutloopEntry := mk_donut_entry "safe2" (1/5)

/-- Last-safe entry fixture far above the offending entry. -/
def last_safe_far_above : SovereigntyCore.DonutloopEntry := mk_donut_entry "safe3" (1/2)

/-- Ledger entry produced by a successful rollback of `offending_entry`
toward `last_safe_below`. -/
def rollback_entry_below : SovereigntyCore.DonutloopEntry :=
{ entry_id := "rb-1"
  subject_id := "subject-1"
  proposal_id := "rollback-prop-off"
  change_type := "rollback-evolve"
  tsafe_mode := "Observe"
  roh_before := 1/4
  roh_after := 1/5
  knowledge_factor := 1/2
  cybostate_factor := 1/2
  policy_refs := ["policy-0001-2026"]
  hexstamp := "0xRB"
  timestamp_utc := "2026-01-02T00:00:00Z"
  prev_hexstamp := "0xHEX-off" }

/-- Ledger entry produced by a rollback of `offending_entry` toward
`last_safe_within_eps`; its RoH is strictly above the offending entry's. -/
def rollback_entry_eps : SovereigntyCore.DonutloopEntry :=
{ entry_id := "rb-e"
  subject_id := "subject-1"
  proposal_id := "rollback-prop-off"
  change_type := "rollback-evolve"
  tsafe_mode := "Observe"
  roh_before := 1/4
  roh_after := 1/4 + 1/5000000
  knowledge_factor := 1/2
  cybostate_factor := 1/2
  policy_refs := ["policy-0001-2026"]
  hexstamp := "0xRBE"
  timestamp_utc := "2026-01-02T00:00:00Z"
  prev_hexstamp := "0xHEX-off" }

end Fixtures

/-! ## Theorems -/

open PolicyEngine Fixtures

/-- On a transition the kernel recognizes as a downgrade, the risk-reducing
exception predicate holds exactly when RoH does not increase. -/
theorem reduces_iff_of_downgrade (ctx : ReversalContext)
    (hdown : is_neuromorph_downgrade ctx.fromState ctx.toState = true) :
    reduces_capability_and_roh ctx = true ↔ ctx.roh_after ≤ ctx.roh_before := by
simp [reduces_capability_and_roh, hdown]

/-- On a recognized downgrade, the kernel's RoH guard condition collapses to
"source tier is ControlledHuman and RoH strictly increased"; in particular
the `roh_after > 0.30` disjunct can never fire on its own. -/
theorem guard2_iff (ctx : ReversalContext)
    (hdown : is_neuromorph_downgrade ctx.fromState ctx.toState = true) :
    (ctx.fromState = CapabilityState.CapControlledHuman
      ∧ ¬(reduces_capability_and_roh ctx = true)
      ∧ (ctx.roh_after > ctx.roh_before ∨ ctx.roh_after > 3/10))
    ↔ (ctx.fromState = CapabilityState.CapControlledHuman
        ∧ ctx.roh_before < ctx.roh_after) := by
rw [reduces_iff_of_downgrade ctx hdown, not_le]
constructor
· rintro ⟨h1, h2, _⟩
  exact ⟨h1, h2⟩
· rintro ⟨h1, h2⟩
  exact ⟨h1, h2, Or.inl h2⟩

/-- The first guard of the kernel does not fire on a recognized downgrade. -/
theorem evaluate_step1_skip (ctx : ReversalContext)
    (hdown : is_neuromorph_downgrade ctx.fromState ctx.toState = true) :
    ¬((!is_neuromorph_downgrade ctx.fromState ctx.toState) = true) := by
simp [hdown]

/-- When guard 2's conjoined condition holds, the kernel denies with
`DeniedRoHViolation`. -/
theorem evaluate_denied_roh_of_guard2 (ctx : ReversalContext)
    (hdown : is_neuromorph_downgrade ctx.fromState ctx.toState = true)
    (h2 : ctx.fromState = CapabilityState.CapControlledHuman
      ∧ ¬(reduces_capability_and_roh ctx = true)
      ∧ (ctx.roh_after > ctx.roh_before ∨ ctx.roh_after > 3/10)) :
    KernelEvaluator.evaluate_reversal ctx =
      Decision.denied DecisionReason.DeniedRoHViolation := by
simp only [KernelEvaluator.evaluate_reversal]
rw [if_neg (evaluate_step1_skip ctx hdown), if_pos h2]

/-- When every guard input is favourable, the kernel returns `Allowed`
(whether or not the transition is a recognized downgrade). -/
theorem evaluate_allowed_of_guards (ctx : ReversalContext)
    (hg2 : ¬(ctx.fromState = CapabilityState.CapControlledHuman
      ∧ ¬(reduces_capability_and_roh ctx = true)
      ∧ (ctx.roh_after > ctx.roh_before ∨ ctx.roh_after > 3/10)))
    (hflag : ctx.reversal_flags.allow_neuromorph_reversal = true)
    (hgod : ctx.roles.neuromorph_god_satisfied
      ctx.reversal_flags.required_regulator_quorum = true)
    (hexp : ctx.reversal_flags.explicit_reversal_order = true)
    (hns : ctx.nosaferalternative = true)
    (hstack : ctx.policystack.all_pass = true)
    (henv : ctx.envelope_ctx.request_capability_downgrade = true) :
    KernelEvaluator.evaluate_reversal ctx = Decision.Allowed := by
simp only [KernelEvaluator.evaluate_reversal]
by_cases hdown : is_neuromorph_downgrade ctx.fromState ctx.toState = true
· rw [if_neg (evaluate_step1_skip ctx hdown), if_neg hg2]
  rw [if_neg (by simp [hflag]), if_neg (by simp [hgod])]
  rw [if_neg (by simp [hexp, hns]), if_neg (by simp [hstack]), if_neg (by simp [henv])]
· rw [if_pos (by simp [Bool.not_eq_true] at hdown; simp [hdown])]

/-- C1 (amended): on every transition the kernel recognizes as a downgrade,
if `allow_neuromorph_reversal` is false the Decision is denied — with reason
`DeniedRoHViolation` when the earlier RoH guard fires (source tier
ControlledHuman and RoH strictly increased), and
`DeniedReversalNotAllowedInTier` otherwise. -/
theorem reversal_flag_off_denies_recognized_downgrades (ctx : ReversalContext)
    (hdown : is_neuromorph_downgrade ctx.fromState ctx.toState = true)
    (hflag : ctx.reversal_flags.allow_neuromorph_reversal = false) :
    KernelEvaluator.evaluate_reversal ctx =
      (if ctx.fromState = CapabilityState.CapControlledHuman
          ∧ ctx.roh_before < ctx.roh_after
       then Decision.denied DecisionReason.DeniedRoHViolation
       else Decision.denied DecisionReason.DeniedReversalNotAllowedInTier) := by
by_cases hc : ctx.fromState = CapabilityState.CapControlledHuman
    ∧ ctx.roh_before < ctx.roh_after
· rw [if_pos hc]
  exact evaluate_denied_roh_of_guard2 ctx hdown ((guard2_iff ctx hdown).mpr hc)
· rw [if_neg hc]
  simp only [KernelEvaluator.evaluate_reversal]
  rw [if_neg (evaluate_step1_skip ctx hdown)]
  rw [if_neg (fun h => hc ((guard2_iff ctx hdown).mp h))]
  rw [if_pos (by simp [hflag])]

/-- C1 witness: the amended statement evaluated on the ControlledHuman →
LabBench fixture with the flag off and RoH rising from 0.1 to 0.2. -/
theorem reversal_flag_off_denies_recognized_downgrades_witness :
    KernelEvaluator.evaluate_reversal Fixtures.ctx_ch_risk_up_off =
      Decision.denied DecisionReason.DeniedRoHViolation := by
have h := reversal_flag_off_denies_recognized_downgrades Fixtures.ctx_ch_risk_up_off
  (by decide) (by decide)
rw [if_pos ⟨rfl, by norm_num [Fixtures.ctx_ch_risk_up_off]⟩] at h
exact h

/-- C1 counterexample: the claim as stated is false on the code.  The
LabBench → ModelOnly transition has target tier index strictly below source
tier index and the flag off, yet the kernel returns `Allowed`; and a
ControlledHuman downgrade with rising RoH and the flag off is denied with
reason `DeniedRoHViolation`, not `DeniedReversalNotAllowedInTier`. -/
theorem reversal_default_deny_claim_cex :
    Fixtures.ctx_labbench_modelonly_off.toState.tier_index
        < Fixtures.ctx_labbench_modelonly_off.fromState.tier_index
      ∧ Fixtures.ctx_labbench_modelonly_off.reversal_flags.allow_neuromorph_reversal = false
      ∧ KernelEvaluator.evaluate_reversal Fixtures.ctx_labbench_modelonly_off
          = Decision.Allowed
      ∧ KernelEvaluator.evaluate_reversal Fixtures.ctx_ch_risk_up_off
          = Decision.denied DecisionReason.DeniedRoHViolation := by
refine ⟨by decide, rfl, rfl, ?_⟩
refine evaluate_denied_roh_of_guard2 Fixtures.ctx_ch_risk_up_off (by decide) ?_
refine ⟨rfl, ?_, Or.inl (by norm_num [Fixtures.ctx_ch_risk_up_off])⟩
rw [reduces_iff_of_downgrade Fixtures.ctx_ch_risk_up_off (by decide), not_le]
norm_num [Fixtures.ctx_ch_risk_up_off]

/-- C2 (amended): every decision the kernel returns as allowed on a
recognized downgrade whose source tier is ControlledHuman satisfies
`roh_after ≤ roh_before`.  (Downgrades from GeneralUse are not RoH-checked,
and the risk-reducing exception predicate is non-strict: RoH exactly
unchanged qualifies.) -/
theorem reversal_allowed_ch_downgrade_roh_monotone (ctx : ReversalContext)
    (hdown : is_neuromorph_downgrade ctx.fromState ctx.toState = true)
    (hch : ctx.fromState = CapabilityState.CapControlledHuman)
    (hallow : (KernelEvaluator.evaluate_reversal ctx).allowed = true) :
    ctx.roh_after ≤ ctx.roh_before := by
by_contra hnot
rw [not_le] at hnot
rw [evaluate_denied_roh_of_guard2 ctx hdown
  ((guard2_iff ctx hdown).mpr ⟨hch, hnot⟩)] at hallow
simp [Decision.denied] at hallow

/-- C2 witness: the ControlledHuman → LabBench fixture with RoH unchanged at
0.2 is allowed, and the amended statement yields `roh_after ≤ roh_before`
there. -/
theorem reversal_allowed_ch_downgrade_roh_monotone_witness :
    Fixtures.ctx_ch_risk_equal.roh_after ≤ Fixtures.ctx_ch_risk_equal.roh_before := by
refine reversal_allowed_ch_downgrade_roh_monotone Fixtures.ctx_ch_risk_equal
  (by decide) rfl ?_
rw [evaluate_allowed_of_guards Fixtures.ctx_ch_risk_equal
  (fun h => absurd (by
    rw [reduces_iff_of_downgrade Fixtures.ctx_ch_risk_equal (by decide)]
    norm_num [Fixtures.ctx_ch_risk_equal]) h.2.1)
  rfl (by decide) rfl rfl (by decide) rfl]
rfl

/-- C2 counterexample: the claim as stated is false on the code.  A
GeneralUse → LabBench downgrade is returned allowed although RoH rises from
0.1 to 0.9; and a ControlledHuman downgrade with RoH exactly unchanged does
qualify for the risk-reducing exception predicate. -/
theorem reversal_monotonicity_claim_cex :
    KernelEvaluator.evaluate_reversal Fixtures.ctx_gu_risk_up_on = Decision.Allowed
      ∧ Fixtures.ctx_gu_risk_up_on.roh_before < Fixtures.ctx_gu_risk_up_on.roh_after
      ∧ is_neuromorph_downgrade Fixtures.ctx_gu_risk_up_on.fromState
          Fixtures.ctx_gu_risk_up_on.toState = true
      ∧ reduces_capability_and_roh Fixtures.ctx_ch_risk_equal = true
      ∧ Fixtures.ctx_ch_risk_equal.roh_after = Fixtures.ctx_ch_risk_equal.roh_before := by
refine ⟨?_, by norm_num [Fixtures.ctx_gu_risk_up_on], by decide, ?_, rfl⟩
· exact evaluate_allowed_of_guards Fixtures.ctx_gu_risk_up_on
    (fun h => by cases h.1) rfl (by decide) rfl rfl (by decide) rfl
· rw [reduces_iff_of_downgrade Fixtures.ctx_ch_risk_equal (by decide)]
  norm_num [Fixtures.ctx_ch_risk_equal]

/-- C3 (amended): a recognized downgrade from ControlledHuman whose RoH
strictly increases is denied with reason `DeniedRoHViolation`; the kernel
enforces no 0.30 ceiling (that disjunct of the RoH guard is unreachable) and
performs no RoH check at all on GeneralUse downgrades. -/
theorem reversal_ch_risk_increase_denied_roh (ctx : ReversalContext)
    (hdown : is_neuromorph_downgrade ctx.fromState ctx.toState = true)
    (hch : ctx.fromState = CapabilityState.CapControlledHuman)
    (hlt : ctx.roh_before < ctx.roh_after) :
    KernelEvaluator.evaluate_reversal ctx =
      Decision.denied DecisionReason.DeniedRoHViolation :=
evaluate_denied_roh_of_guard2 ctx hdown ((guard2_iff ctx hdown).mpr ⟨hch, hlt⟩)

/-- C3 witness: the amended statement evaluated on the ControlledHuman →
LabBench fixture with every other guard input favourable and RoH rising
from 0.1 to 0.4. -/
theorem reversal_ch_risk_increase_denied_roh_witness :
    KernelEvaluator.evaluate_reversal Fixtures.ctx_ch_risk_up_on =
      Decision.denied DecisionReason.DeniedRoHViolation :=
reversal_ch_risk_increase_denied_roh Fixtures.ctx_ch_risk_up_on
  (by decide) rfl (by norm_num [Fixtures.ctx_ch_risk_up_on])

/-- C3 counterexample: the claim as stated is false on the code.  A
ControlledHuman → LabBench downgrade is returned allowed with
`roh_after = 0.8`, far above the 0.30 ceiling. -/
theorem reversal_ceiling_claim_cex :
    KernelEvaluator.evaluate_reversal Fixtures.ctx_ch_over_ceiling_on = Decision.Allowed
      ∧ Fixtures.ctx_ch_over_ceiling_on.fromState = CapabilityState.CapControlledHuman
      ∧ is_neuromorph_downgrade Fixtures.ctx_ch_over_ceiling_on.fromState
          Fixtures.ctx_ch_over_ceiling_on.toState = true
      ∧ Fixtures.ctx_ch_over_ceiling_on.roh_after > 3/10 := by
refine ⟨?_, rfl, by decide, by norm_num [Fixtures.ctx_ch_over_ceiling_on]⟩
exact evaluate_allowed_of_guards Fixtures.ctx_ch_over_ceiling_on
  (fun h => absurd (by
    rw [reduces_iff_of_downgrade Fixtures.ctx_ch_over_ceiling_on (by decide)]
    norm_num [Fixtures.ctx_ch_over_ceiling_on]) h.2.1)
  rfl (by decide) rfl rfl (by decide) rfl

/-- C4 (amended): the kernel's downgrade predicate holds exactly on the
index-decreasing tier pairs other than LabBench → ModelOnly, and every
transition it does not recognize as a downgrade returns `Allowed`
immediately, without consulting any baseline evaluator. -/
theorem reversal_downgrade_recognition_and_delegation (f t : CapabilityState)
    (ctx : ReversalContext) :
    (is_neuromorph_downgrade f t
        = (decide (t.tier_index < f.tier_index)
            && !(decide (f = CapabilityState.CapLabBench)
                  && decide (t = CapabilityState.CapModelOnly))))
      ∧ (is_neuromorph_downgrade ctx.fromState ctx.toState = false →
          KernelEvaluator.evaluate_reversal ctx = Decision.Allowed) := by
constructor
· cases f <;> cases t <;> rfl
· intro h
  simp only [KernelEvaluator.evaluate_reversal]
  rw [if_pos (by simp [h])]

/-- C4 witness: the delegation branch evaluated on the ModelOnly → LabBench
upgrade fixture. -/
theorem reversal_downgrade_recognition_and_delegation_witness :
    KernelEvaluator.evaluate_reversal Fixtures.ctx_upgrade_model_labbench =
      Decision.Allowed :=
(reversal_downgrade_recognition_and_delegation CapabilityState.CapModelOnly
  CapabilityState.CapLabBench Fixtures.ctx_upgrade_model_labbench).2 (by decide)

/-- C4 counterexample: the claim as stated is false on the code.  The
LabBench → ModelOnly pair has target tier index strictly below source tier
index, yet the kernel's downgrade predicate rejects it and the guard chain
never runs: with every guard input unfavourable the result is still
`Allowed`, not a baseline-evaluator decision. -/
theorem reversal_downgrade_coverage_cex :
    Fixtures.ctx_labbench_modelonly_hostile.toState.tier_index
        < Fixtures.ctx_labbench_modelonly_hostile.fromState.tier_index
      ∧ is_neuromorph_downgrade Fixtures.ctx_labbench_modelonly_hostile.fromState
          Fixtures.ctx_labbench_modelonly_hostile.toState = false
      ∧ KernelEvaluator.evaluate_reversal Fixtures.ctx_labbench_modelonly_hostile
          = Decision.Allowed := by
exact ⟨by decide, by decide, rfl⟩

/-- C5 (amended): `PolicyStack::is_satisfied` holds exactly when the three
sets base-medical, base-engineering and quantum-ai-safety are non-empty; the
`juris_local` set is not consulted and its emptiness never affects the
predicate. -/
theorem policystack_satisfied_characterization (ps : AlnSchema.PolicyStack) :
    (ps.is_satisfied = true ↔
        ps.base_medical ≠ [] ∧ ps.base_engineering ≠ [] ∧ ps.quantum_ai_safety ≠ [])
      ∧ ∀ jl : List AlnSchema.JurisdictionTag,
          AlnSchema.PolicyStack.is_satisfied
            { ps with juris_local := jl } = ps.is_satisfied := by
constructor
· simp [AlnSchema.PolicyStack.is_satisfied, and_assoc]
· intro jl
  rfl

/-- C5 witness: the characterization applied to the default policy stack,
whose three checked sets are non-empty. -/
theorem policystack_satisfied_characterization_witness :
    AlnSchema.PolicyStack.new.is_satisfied = true :=
(policystack_satisfied_characterization AlnSchema.PolicyStack.new).1.mpr
  ⟨by decide, by decide, by decide⟩

/-- C5 counterexample: the claim as stated is false on the code.  The
default policy stack has an empty `juris_local` set yet `is_satisfied`
returns true, so emptiness of one of the four sets does not make the
predicate false. -/
theorem policystack_four_sets_cex :
    AlnSchema.PolicyStack.new.is_satisfied = true
      ∧ AlnSchema.PolicyStack.new.juris_local = [] := by
exact ⟨by decide, rfl⟩

/-- C6 (amended): the sovereignty composite holds iff Host, OrganicCpuOwner
and SovereignKernel are present and the number of Regulator entries reduced
modulo 256 (the `usize` count is cast to `u8`) reaches the required quorum;
for multisets with fewer than 256 Regulator entries this is the true count,
but at 256 entries the truncated count wraps to 0. -/
theorem neuromorph_god_satisfied_characterization (rs : PolicyEngineSrc.RoleSet) :
    PolicyEngineSrc.neuromorph_god_satisfied rs = true ↔
      (Role.Host ∈ rs.roles ∧ Role.OrganicCpuOwner ∈ rs.roles
        ∧ Role.SovereignKernel ∈ rs.roles
        ∧ rs.required_regulator_quorum ≤ (rs.roles.count Role.Regulator) % 256) := by
simp [PolicyEngineSrc.neuromorph_god_satisfied, PolicyEngineSrc.RoleSet.has_role,
  PolicyEngineSrc.RoleSet.count_role, List.any_eq_true, and_assoc]

/-- C6 witness: the characterization applied to the multiset with the three
structural roles and one Regulator at quorum 1. -/
theorem neuromorph_god_satisfied_characterization_witness :
    PolicyEngineSrc.neuromorph_god_satisfied Fixtures.roleset_small = true :=
(neuromorph_god_satisfied_characterization Fixtures.roleset_small).mpr
  ⟨by decide, by decide, by decide, by decide⟩

set_option maxRecDepth 8192 in
/-- C6 counterexample: the claim as stated is false on the code.  With 256
Regulator entries and quorum 1 the true count (256) reaches the quorum and
all three structural roles are present, yet the composite evaluates to
false, because `count_role` casts the count to `u8` and 256 truncates
to 0. -/
theorem neuromorph_god_quorum_truncation_cex :
    PolicyEngineSrc.neuromorph_god_satisfied Fixtures.roleset_256_regulators = false
      ∧ Role.Host ∈ Fixtures.roleset_256_regulators.roles
      ∧ Role.OrganicCpuOwner ∈ Fixtures.roleset_256_regulators.roles
      ∧ Role.SovereignKernel ∈ Fixtures.roleset_256_regulators.roles
      ∧ Fixtures.roleset_256_regulators.required_regulator_quorum
          ≤ Fixtures.roleset_256_regulators.roles.count Role.Regulator := by
exact ⟨by decide, by decide, by decide, by decide, by decide⟩

/-- C7: evaluated at a ModelOnly → LabBench transition whose consent state is
Revoked (with non-empty evidence and a satisfied policy stack), `validate`
returns `Ok(())` — the Revoked absorbing-denial state is accepted because the
consent check only rejects `None`. -/
theorem validate_accepts_revoked_consent :
    AlnSchema.CapabilityTransition.validate Fixtures.transition_revoked_consent
        = Except.ok ()
      ∧ Fixtures.transition_revoked_consent.required_consent
          = AlnSchema.ConsentState.Revoked
      ∧ Fixtures.transition_revoked_consent.toState ≠ AlnSchema.CapabilityState.ModelOnly := by
exact ⟨rfl, rfl, by decide⟩

/-- C8: `append_hivemind_fence_view` accepts an entry whose `prev_hexstamp`
matches neither the last stored entry's `hexstamp` nor the genesis sentinel,
appending it without any linkage verification. -/
theorem fence_append_accepts_broken_linkage :
    HivemindFence.append_hivemind_fence_view Fixtures.fence_config
        [Fixtures.fence_view_genesis] Fixtures.fence_view_mismatch
      = Except.ok [Fixtures.fence_view_genesis, Fixtures.fence_view_mismatch]
      ∧ Fixtures.fence_view_mismatch.prev_hexstamp ≠ Fixtures.fence_view_genesis.hexstamp
      ∧ Fixtures.fence_view_mismatch.prev_hexstamp ≠ Fixtures.fence_config.genesis_hexstamp := by
exact ⟨rfl, by decide, by decide⟩

/-- C9 (amended): `synthesize_smart_rollback_entry` fails on a subject-id
mismatch, and fails whenever `last_safe.roh_after` exceeds
`offending.roh_after` by more than the 1e-6 tolerance (so an increase within
the tolerance is accepted); every successfully produced entry has
`roh_after = last_safe.roh_after` and `prev_hexstamp = offending.hexstamp`. -/
theorem synthesize_rollback_characterization
    (off ls : SovereigntyCore.DonutloopEntry) (nid nhex now_utc : String) :
    (off.subject_id ≠ ls.subject_id →
        ∀ e, SovereigntyCore.synthesize_smart_rollback_entry off ls nid nhex now_utc
          ≠ Except.ok e)
      ∧ (off.roh_after + 1/1000000 < ls.roh_after →
          ∀ e, SovereigntyCore.synthesize_smart_rollback_entry off ls nid nhex now_utc
            ≠ Except.ok e)
      ∧ (∀ e, SovereigntyCore.synthesize_smart_rollback_entry off ls nid nhex now_utc
            = Except.ok e →
          e.roh_after = ls.roh_after ∧ e.prev_hexstamp = off.hexstamp) := by
unfold SovereigntyCore.synthesize_smart_rollback_entry
refine ⟨?_, ?_, ?_⟩
· intro h e
  rw [if_pos h]
  exact fun hc => Except.noConfusion hc
· intro h e
  by_cases h1 : off.subject_id ≠ ls.subject_id
  · rw [if_pos h1]
    exact fun hc => Except.noConfusion hc
  · rw [if_neg h1, if_pos h]
    exact fun hc => Except.noConfusion hc
· intro e he
  by_cases h1 : off.subject_id ≠ ls.subject_id
  · rw [if_pos h1] at he
    exact absurd he (fun hc => Except.noConfusion hc)
  · rw [if_neg h1] at he
    by_cases h2 : ls.roh_after > off.roh_after + 1/1000000
    · rw [if_pos h2] at he
      exact absurd he (fun hc => Except.noConfusion hc)
    · rw [if_neg h2] at he
      cases he
      exact ⟨rfl, rfl⟩

/-- Evaluation of the rollback synthesizer on the below-offending pair. -/
theorem rollback_entry_below_eq :
    SovereigntyCore.synthesize_smart_rollback_entry Fixtures.offending_entry
        Fixtures.last_safe_below "rb-1" "0xRB" "2026-01-02T00:00:00Z"
      = Except.ok Fixtures.rollback_entry_below := by
unfold SovereigntyCore.synthesize_smart_rollback_entry
rw [if_neg (by simp [Fixtures.offending_entry, Fixtures.last_safe_below,
  Fixtures.mk_donut_entry])]
rw [if_neg (by norm_num [Fixtures.offending_entry, Fixtures.last_safe_below,
  Fixtures.mk_donut_entry])]
rfl

/-- C9 witness: the characterization applied to concrete entries — the
far-above last-safe entry is rejected, and the successful rollback from the
below-offending last-safe entry restores its RoH and links to the offending
entry's hexstamp. -/
theorem synthesize_rollback_characterization_witness :
    (∀ e, SovereigntyCore.synthesize_smart_rollback_entry Fixtures.offending_entry
        Fixtures.last_safe_far_above "rb-2" "0xRB2" "2026-01-02T00:00:00Z"
        ≠ Except.ok e)
      ∧ Fixtures.rollback_entry_below.roh_after = Fixtures.last_safe_below.roh_after
      ∧ Fixtures.rollback_entry_below.prev_hexstamp = Fixtures.offending_entry.hexstamp := by
refine ⟨fun e => (synthesize_rollback_characterization Fixtures.offending_entry
    Fixtures.last_safe_far_above "rb-2" "0xRB2" "2026-01-02T00:00:00Z").2.1
    (by norm_num [Fixtures.offending_entry, Fixtures.last_safe_far_above,
      Fixtures.mk_donut_entry]) e, ?_⟩
exact (synthesize_rollback_characterization Fixtures.offending_entry
  Fixtures.last_safe_below "rb-1" "0xRB" "2026-01-02T00:00:00Z").2.2
  Fixtures.rollback_entry_below rollback_entry_below_eq

/-- C9 counterexample: the claim as stated is false on the code.  With
`last_safe.roh_after = 0.25 + 2e-7`, strictly above
`offending.roh_after = 0.25` but within the 1e-6 tolerance, the synthesizer
succeeds and the produced entry's `roh_after` strictly exceeds the offending
entry's. -/
theorem synthesize_rollback_tolerance_cex :
    Fixtures.offending_entry.roh_after < Fixtures.last_safe_within_eps.roh_after
      ∧ SovereigntyCore.synthesize_smart_rollback_entry Fixtures.offending_entry
          Fixtures.last_safe_within_eps "rb-e" "0xRBE" "2026-01-02T00:00:00Z"
        = Except.ok Fixtures.rollback_entry_eps
      ∧ Fixtures.offending_entry.roh_after < Fixtures.rollback_entry_eps.roh_after := by
refine ⟨?_, ?_, ?_⟩
· norm_num [Fixtures.offending_entry, Fixtures.last_safe_within_eps, Fixtures.mk_donut_entry]
· unfold SovereigntyCore.synthesize_smart_rollback_entry
  rw [if_neg (by simp [Fixtures.offending_entry, Fixtures.last_safe_within_eps,
    Fixtures.mk_donut_entry])]
  rw [if_neg (by norm_num [Fixtures.offending_entry, Fixtures.last_safe_within_eps,
    Fixtures.mk_donut_entry])]
  rfl
· norm_num [Fixtures.offending_entry, Fixtures.rollback_entry_eps, Fixtures.mk_donut_entry]

/-- `clamp01` always lands in [0, 1]: NaN goes to 0, negatives (including
negative infinity) to 0, values above 1 (including positive infinity) to 1,
and everything else is already in range. -/
theorem clamp01_in01 (x : NeuroPrintCore.F) : (NeuroPrintCore.clamp01 x).in01 := by
cases x with
| nan => exact ⟨0, rfl, le_refl 0, zero_le_one⟩
| inf => exact ⟨1, rfl, zero_le_one, le_refl 1⟩
| neginf => exact ⟨0, rfl, le_refl 0, zero_le_one⟩
| val q =>
  by_cases h1 : q < 0
  · refine ⟨0, ?_, le_refl 0, zero_le_one⟩
    simp [NeuroPrintCore.clamp01, NeuroPrintCore.F.is_nan, NeuroPrintCore.F.blt, h1]
  · by_cases h2 : (1 : ℚ) < q
    · refine ⟨1, ?_, zero_le_one, le_refl 1⟩
      simp [NeuroPrintCore.clamp01, NeuroPrintCore.F.is_nan, NeuroPrintCore.F.blt, h1, h2]
    · refine ⟨q, ?_, not_lt.mp h1, not_lt.mp h2⟩
      simp [NeuroPrintCore.clamp01, NeuroPrintCore.F.is_nan, NeuroPrintCore.F.blt, h1, h2]

/-- The guarded RoH normalization (clamped division when the ceiling is
positive, literal 0 otherwise) always lands in [0, 1]. -/
theorem roh_norm_in01 (a c : NeuroPrintCore.F) :
    (if (NeuroPrintCore.F.val 0).blt c then NeuroPrintCore.clamp01 (a.div c)
     else NeuroPrintCore.F.val 0).in01 := by
split
· exact clamp01_in01 _
· exact ⟨0, rfl, le_refl 0, zero_le_one⟩

/-- C10: for every input snapshot — with arbitrary `f32` field values,
including NaN and the infinities — every `f32` field of the NeuroPrintView
produced by `neuroprint_from_snapshot` lies in the closed interval [0, 1]:
each is either passed through `clamp01` (which maps NaN to 0) or equals the
ceiling-guarded RoH normalization. -/
theorem neuroprint_fields_bounded (input : NeuroPrintCore.NeuroPrintInput) :
    (NeuroPrintCore.neuroprint_from_snapshot input).blood.in01
      ∧ (NeuroPrintCore.neuroprint_from_snapshot input).oxygen.in01
      ∧ (NeuroPrintCore.neuroprint_from_snapshot input).wave.in01
      ∧ (NeuroPrintCore.neuroprint_from_snapshot input).time.in01
      ∧ (NeuroPrintCore.neuroprint_from_snapshot input).decay.in01
      ∧ (NeuroPrintCore.neuroprint_from_snapshot input).lifeforce.in01
      ∧ (NeuroPrintCore.neuroprint_from_snapshot input).brain.in01
      ∧ (NeuroPrintCore.neuroprint_from_snapshot input).smart.in01
      ∧ (NeuroPrintCore.neuroprint_from_snapshot input).evolve.in01
      ∧ (NeuroPrintCore.neuroprint_from_snapshot input).power.in01
      ∧ (NeuroPrintCore.neuroprint_from_snapshot input).tech.in01
      ∧ (NeuroPrintCore.neuroprint_from_snapshot input).fear.in01
      ∧ (NeuroPrintCore.neuroprint_from_snapshot input).pain.in01
      ∧ (NeuroPrintCore.neuroprint_from_snapshot input).nano.in01
      ∧ (NeuroPrintCore.neuroprint_from_snapshot input).bio_coord_1d.in01
      ∧ (NeuroPrintCore.neuroprint_from_snapshot input).biofield_load.in01 := by
simp only [NeuroPrintCore.neuroprint_from_snapshot]
refine ⟨clamp01_in01 _, clamp01_in01 _, clamp01_in01 _, clamp01_in01 _,
  roh_norm_in01 input.roh_after input.roh_ceiling, clamp01_in01 _, clamp01_in01 _,
  clamp01_in01 _, clamp01_in01 _, clamp01_in01 _, clamp01_in01 _, clamp01_in01 _,
  clamp01_in01 _, clamp01_in01 _, clamp01_in01 _, clamp01_in01 _⟩

end NewRowPrint
